import Mathlib

/-!
Verification of the Flask-Mail library (flask_mail/__init__.py, plus the
historical flaskext/mail package kept in the repository) against its
natural-language specification.

Python strings are embedded as lists of characters so that every operation
(splitting on CRLF, stripping whitespace, membership tests) is a structurally
recursive, kernel-computable Lean function.  Python object state is embedded
as immutable structures with explicit state passing; transport side effects
(SMTP connect, starttls, login, sendmail, quit) are recorded as event traces;
the blinker signal is recorded as a list of dispatch records.
-/

namespace FlaskMail

/-- Python strings, embedded as character lists. -/
abbrev Str := List Char

/-- Characters for which Python's str.isspace() holds — exactly the set
str.strip() removes: the ASCII whitespace run 09-0D, the file/group/record/
unit separators 1C-1F, the space, next-line (85), no-break space (A0), ogham
space mark (1680), the Unicode space separators 2000-200A, the line and
paragraph separators 2028/2029, narrow no-break space (202F), medium
mathematical space (205F) and ideographic space (3000). -/
def isPySpace (c : Char) : Bool :=
  (0x09 ≤ c.toNat && c.toNat ≤ 0x0d) || (0x1c ≤ c.toNat && c.toNat ≤ 0x1f)
    || c.toNat = 0x20 || c.toNat = 0x85 || c.toNat = 0xa0 || c.toNat = 0x1680
    || (0x2000 ≤ c.toNat && c.toNat ≤ 0x200a) || c.toNat = 0x2028
    || c.toNat = 0x2029 || c.toNat = 0x202f || c.toNat = 0x205f
    || c.toNat = 0x3000

/-- Python's str.strip() with no arguments: remove leading and trailing
whitespace characters. -/
def pyStrip (s : Str) : Str :=
  ((s.dropWhile isPySpace).reverse.dropWhile isPySpace).reverse

/-- Python's s.split(sep) for the two-character separator CR LF: scan left to
right, cutting at each non-overlapping occurrence of the separator.  As in
Python, splitting the empty string yields one empty line. -/
def splitCRLF : Str → List Str
  | [] => [[]]
  | '\r' :: '\n' :: rest => [] :: splitCRLF rest
  | c :: rest =>
    match splitCRLF rest with
    | [] => [[c]]
    | line :: lines => (c :: line) :: lines

/-- Embeds flask_mail._has_newline: a carriage return or line feed occurs in
the line. -/
def _has_newline (line : Str) : Bool :=
  line.contains '\n' || line.contains '\r'

/-- Python truthiness of an optional string (None and the empty string are
falsy). -/
def pyTruthyStr : Option Str → Bool
  | none => false
  | some s => !s.isEmpty

/-- Python expression (a or b) for an optional string a with fallback b. -/
def pyOrStr (a : Option Str) (b : Str) : Str :=
  match a with
  | none => b
  | some s => if s.isEmpty then b else s

/-- An address as accepted throughout the library: either a plain string or a
(display name, address) pair. -/
inductive Addr
  | plain (s : Str)
  | pair (name addr : Str)
deriving DecidableEq, Repr

/-- String form of an address as built inside has_bad_headers for tuples
(f-string "name <addr>"); a plain string is left as is. -/
def Addr.headerString : Addr → Str
  | .plain s => s
  | .pair n a => n ++ " <".toList ++ a ++ ">".toList

/-- Python truthiness of an optional address: None is falsy, an empty string
is falsy, a 2-tuple is always truthy. -/
def Addr.truthyOpt : Option Addr → Bool
  | none => false
  | some (.plain s) => !s.isEmpty
  | some (.pair _ _) => true

/-- Embeds the Attachment class after its constructor has run: the data is
required, the content type has been resolved (guessed from the filename, or
defaulted from the kind of data), and the disposition has defaulted to
"attachment". -/
structure Attachment where
  filename : Option Str
  content_type : Str
  data : Str
  disposition : Str
  headers : List (Str × Str)
deriving DecidableEq, Repr

/-- Embeds the Message class after its constructor has run: the sender has
been resolved against the configured default and flattened from a tuple to a
string, html has been folded into the alts mapping, and the message id has
been generated.  The alts dict is kept as an insertion-ordered association
list, matching Python dict iteration order. -/
structure Message where
  subject : Str
  recipients : List Addr
  sender : Str
  reply_to : Option Addr
  cc : List Addr
  bcc : List Addr
  body : Option Str
  alts : List (Str × Str)
  date : Option Nat
  msgId : Str
  charset : Option Str
  extra_headers : List (Str × Str)
  mail_options : List Str
  rcpt_options : List Str
  attachments : List Attachment
deriving DecidableEq, Repr

/-- Embeds the send_to property: out = set(recipients); if bcc:
out.update(bcc); if cc: out.update(cc). -/
def Message.send_to (m : Message) : Finset Addr :=
  let out := m.recipients.toFinset
  let out := if m.bcc.isEmpty then out else out ∪ m.bcc.toFinset
  if m.cc.isEmpty then out else out ∪ m.cc.toFinset

/-- Embeds the headers list assembled at the top of has_bad_headers:
[self.sender, *self.recipients], with reply_to appended when truthy. -/
def Message.headersToCheck (m : Message) : List Addr :=
  let hs := Addr.plain m.sender :: m.recipients
  match m.reply_to with
  | some r => if Addr.truthyOpt (some r) then hs ++ [r] else hs
  | none => hs

/-- Python's line[0] in "\t " as used in has_bad_headers; for the empty line
the source has already returned before this test, and the value false keeps
the combined per-line condition unchanged there. -/
def startsWithTabOrSpace : Str → Bool
  | [] => false
  | c :: _ => c = '\t' || c = ' '

/-- The per-line conditions of the subject loop in has_bad_headers, in source
order: an empty line, a continuation line (linenum > 0) whose first character
is not in "\t ", a line still containing a bare CR or LF, or a line whose
strip() is empty. -/
def badSubjectLine (linenum : Nat) (line : Str) : Bool :=
  line.isEmpty
    || (decide (0 < linenum) && !startsWithTabOrSpace line)
    || _has_newline line
    || ((pyStrip line).length == 0)

/-- Embeds Message.has_bad_headers: any CR/LF in sender, recipients or
reply-to fails outright; a non-empty subject containing CR/LF is split on
CRLF and each enumerated line is checked with the four per-line rules. -/
def Message.has_bad_headers (m : Message) : Bool :=
  if m.headersToCheck.any (fun h => _has_newline h.headerString) then
    true
  else if !m.subject.isEmpty then
    if _has_newline m.subject then
      (splitCRLF m.subject).enum.any fun p => badSubjectLine p.1 p.2
    else false
  else false

/-! MIME assembly (Message._message and friends). -/

/-- A MIME part as assembled by Message._message: a text part (MIMEText with
a subtype and charset), an attachment part (MIMEBase with main and sub type
and a payload), or a multipart container with an ordered list of attached
parts. -/
inductive Mime
  | text (subtype charset : Str) (content : Option Str)
  | base (maintype subtype : Str) (payload : Str)
  | multipart (subtype : Str) (parts : List Mime)

/-- Embeds Message._mimetext: a MIMEText part with the given subtype and the
message charset, defaulting to utf-8 (self.charset or "utf-8"). -/
def Message._mimetext (m : Message) (text : Option Str) (subtype : Str) : Mime :=
  Mime.text subtype (pyOrStr m.charset "utf-8".toList) text

/-- Python's content_type.split("/") unpacked into the two MIMEBase
arguments: the part before the first slash and the part after it. -/
def splitSlash (s : Str) : Str × Str :=
  (s.takeWhile (fun c => c ≠ '/'), (s.dropWhile (fun c => c ≠ '/')).drop 1)

/-- Embeds one iteration of the attachment loop in Message._message: a
MIMEBase part whose type is the split content type and whose payload is the
attachment data.  The base64 transfer encoding of the payload and the
Content-Disposition/extra headers added to the part are byte-level details
inside the part that no claim inspects; the part structure and its position
among the top-level parts are what is modelled. -/
def attachmentPart (a : Attachment) : Mime :=
  Mime.base (splitSlash a.content_type).1 (splitSlash a.content_type).2 a.data

/-- Embeds the body-structure branches of Message._message: no attachments
and no alternatives gives a bare text part; attachments without alternatives
gives a multipart (default subtype mixed) with the body part first and one
part per attachment; any alternatives give a multipart whose first part is a
nested alternative multipart (body part first, then the alternatives in
insertion order) followed by one part per attachment. -/
def Message.messageBody (m : Message) : Mime :=
  if m.attachments.length = 0 && m.alts.isEmpty then
    m._mimetext m.body "plain".toList
  else if decide (m.attachments.length > 0) && m.alts.isEmpty then
    Mime.multipart "mixed".toList
      (m._mimetext m.body "plain".toList :: m.attachments.map attachmentPart)
  else
    Mime.multipart "mixed".toList
      (Mime.multipart "alternative".toList
          (m._mimetext m.body "plain".toList
            :: m.alts.map fun p => m._mimetext (some p.2) p.1)
        :: m.attachments.map attachmentPart)

/-- Embeds sanitize_address on its ASCII path: parseaddr of a plain address
followed by formataddr is the identity for simple addresses, and a
(name, addr) pair renders as its display form.  The RFC 2047 encoded-word
and IDNA branches for non-ASCII input are not exercised by any claim. -/
def sanitize_address (a : Addr) : Str := a.headerString

/-- Embeds sanitize_addresses: sanitize each address. -/
def sanitize_addresses (l : List Addr) : List Str := l.map sanitize_address

/-- Embeds sanitize_subject on its ASCII path (a non-ASCII subject is
replaced by an RFC 2047 encoded word, which no claim exercises). -/
def sanitize_subject (s : Str) : Str := s

/-- Models email.utils.formatdate: a deterministic, injective rendering of
the timestamp (the RFC 2822 calendar arithmetic is abstracted). -/
def formatdate (t : Nat) : Str := Nat.toDigits 10 t

/-- Models list(set(xs)) for strings: duplicates collapse, and the
process-deterministic iteration order of a Python set is reproduced as the
order of first occurrences. -/
def pySetList (xs : List Str) : List Str := xs.eraseDups

/-- Python's ", ".join. -/
def joinCommaSpace (xs : List Str) : Str := (xs.intersperse ", ".toList).flatten

/-- Embeds the header assembly of Message._message, in source order: Subject
(only when the subject is non-empty), From, To (sanitized, deduplicated,
comma-joined), Date (the stored date, or the current time when unset, as
formatdate does), Message-ID (the id generated at construction), Cc (when
present), Reply-To (when truthy), then the extra headers verbatim. -/
def Message.mkHeaders (m : Message) (now : Nat) : List (Str × Str) :=
  (if !m.subject.isEmpty then
      [("Subject".toList, sanitize_subject m.subject)]
    else [])
  ++ [("From".toList, sanitize_address (.plain m.sender)),
      ("To".toList, joinCommaSpace (pySetList (sanitize_addresses m.recipients))),
      ("Date".toList, formatdate (m.date.getD now)),
      ("Message-ID".toList, m.msgId)]
  ++ (if !m.cc.isEmpty then
        [("Cc".toList, joinCommaSpace (pySetList (sanitize_addresses m.cc)))]
      else [])
  ++ (match m.reply_to with
      | some r => if Addr.truthyOpt (some r) then
          [("Reply-To".toList, sanitize_address r)] else []
      | none => [])
  ++ m.extra_headers

/-- The assembled MIME document: the top-level part structure plus the
headers set on the top-level object. -/
structure MimeDoc where
  part : Mime
  headers : List (Str × Str)

/-- Embeds Message._message: body structure plus headers.  The now argument
is the current time, consulted only when the stored date is unset. -/
def Message._message (m : Message) (now : Nat) : MimeDoc :=
  { part := m.messageBody, headers := m.mkHeaders now }

/-- The number of multipart containers in the document _message builds,
following its three branches: none for a single-part message, one mixed
container when there are attachments but no alternatives, and a mixed plus a
nested alternative container otherwise.  When the generator flattens the
document, each such container has no Content-Type boundary parameter set, so
email.generator._make_boundary draws one fresh random boundary per container
(random.randrange over the token), on every serialization. -/
def Message.boundaryCount (m : Message) : Nat :=
  if m.attachments.length = 0 && m.alts.isEmpty then 0
  else if decide (m.attachments.length > 0) && m.alts.isEmpty then 1
  else 2

/-- The serialized byte stream of a message, up to the injective rendering:
the document (headers and part tree) together with the multipart boundary
values that were drawn from the process random source during this
serialization and are spliced into the bytes between the parts. -/
structure SerializedBytes where
  doc : MimeDoc
  boundaries : List Nat

/-- Embeds Message.as_bytes: _message() is rebuilt and flattened on every
call, and flattening draws one fresh boundary from the random source for
each multipart container, so the bytes are a function of the message state,
the current time (only when the date is unset) and the random draws rand
made at this serialization. -/
def Message.as_bytes (m : Message) (now : Nat) (rand : Nat → Nat) : SerializedBytes :=
  { doc := m._message now,
    boundaries := (List.range m.boundaryCount).map rand }

/-! Connection manager. -/

/-- The SMTP-level calls the library issues on its transport handle. -/
inductive TransportEvent
  | connect (server : Str) (port : Nat) (use_ssl : Bool)
  | starttls
  | login (username password : Str)
  | sendmail (envelope_from : Str) (to_addrs : List Str) (message : Message)
  | quit
deriving DecidableEq, Repr

/-- The errors Connection.send can raise before doing any transport work:
the two assertion failures and BadHeaderError. -/
inductive SendError
  | noRecipients
  | noSender
  | badHeader
deriving DecidableEq, Repr

/-- Embeds the _Mail application state: the configuration resolved once at
init_app time. -/
structure _Mail where
  server : Str
  username : Option Str
  password : Option Str
  port : Nat
  use_tls : Bool
  use_ssl : Bool
  default_sender : Option Str
  debug : Nat
  max_emails : Option Nat
  suppress : Bool
  ascii_attachments : Bool
deriving DecidableEq, Repr

/-- Embeds Connection state: the configuration, the optional SMTP handle
(handles are numbered so that a reopened handle is provably distinct from
the one it replaced), and the per-scope sent counter. -/
structure Connection where
  mail : _Mail
  host : Option Nat
  num_emails : Nat
  nextHandle : Nat
deriving DecidableEq, Repr

/-- Embeds Connection.configure_host as the transport calls it makes: an SSL
or plain connect, the optional STARTTLS, and a login when both credentials
are truthy. -/
def configure_host_events (mail : _Mail) : List TransportEvent :=
  [TransportEvent.connect mail.server mail.port mail.use_ssl]
    ++ (if mail.use_tls then [TransportEvent.starttls] else [])
    ++ (if pyTruthyStr mail.username && pyTruthyStr mail.password then
          [TransportEvent.login (mail.username.getD []) (mail.password.getD [])]
        else [])

/-- Embeds Connection.__enter__: a suppressed configuration gets no handle,
otherwise configure_host opens a fresh one; the sent counter starts at 0. -/
def Connection.enter (mail : _Mail) : Connection × List TransportEvent :=
  if mail.suppress then
    ({ mail := mail, host := none, num_emails := 0, nextHandle := 0 }, [])
  else
    ({ mail := mail, host := some 0, num_emails := 0, nextHandle := 1 },
      configure_host_events mail)

/-- Embeds Connection.__exit__: quit exactly when a handle is open.  The
exception information the with-statement passes in is ignored by the source
(cleanup is unconditional); the exc argument records whether an error was in
flight so that this independence is visible in the statement. -/
def Connection.exitScope (c : Connection) (_exc : Option SendError) : List TransportEvent :=
  if c.host.isSome then [TransportEvent.quit] else []

/-- Embeds the date stamping in Connection.send: an unset date is set to the
current time right before transmission. -/
def Message.stampDate (m : Message) (now : Nat) : Message :=
  if m.date.isNone then { m with date := some now } else m

/-- Models iterating over the send_to set where it is passed to sendmail:
the deduplicated union of recipients, bcc and cc in the deterministic order
of first occurrences. -/
def Message.send_to_list (m : Message) : List Addr :=
  (m.recipients ++ m.bcc ++ m.cc).eraseDups

/-- Outcome of one Connection.send: an error raised before any transport
work, or the updated connection together with the (possibly date-stamped)
message. -/
inductive SendOutcome
  | raised (e : SendError)
  | sent (c : Connection) (m : Message)
deriving DecidableEq, Repr

/-- Result of one Connection.send: its outcome, the transport calls it
issued, and the email_dispatched records it emitted. -/
structure SendResult where
  outcome : SendOutcome
  events : List TransportEvent
  dispatched : List (Str × Message)
deriving DecidableEq, Repr

/-- Embeds Connection.send: assert the resolved recipient set is non-empty,
assert a sender is resolved, raise BadHeaderError on a positive header
check, stamp the date if unset, call sendmail when a handle is open, always
fire email_dispatched, then increment the counter; when the counter reaches
max_emails it resets to zero and, when a handle is open, the handle is quit
and a fresh one opened by configure_host. -/
def Connection.send (c : Connection) (app : Str) (message : Message)
    (envelope_from : Option Str) (now : Nat) : SendResult :=
  if message.send_to = ∅ then
    { outcome := .raised .noRecipients, events := [], dispatched := [] }
  else if message.sender.isEmpty then
    { outcome := .raised .noSender, events := [], dispatched := [] }
  else if message.has_bad_headers then
    { outcome := .raised .badHeader, events := [], dispatched := [] }
  else
    let message := message.stampDate now
    let sendEvents :=
      match c.host with
      | some _ =>
          [TransportEvent.sendmail
            (sanitize_address (.plain (pyOrStr envelope_from message.sender)))
            (sanitize_addresses message.send_to_list) message]
      | none => []
    let dispatched := [(app, message)]
    let n := c.num_emails + 1
    if c.mail.max_emails = some n then
      match c.host with
      | some _ =>
          let c' : Connection :=
            { c with host := some c.nextHandle, nextHandle := c.nextHandle + 1,
                     num_emails := 0 }
          { outcome := .sent c' message,
            events := sendEvents ++ [TransportEvent.quit] ++ configure_host_events c.mail,
            dispatched := dispatched }
      | none =>
          { outcome := .sent { c with num_emails := 0 } message,
            events := sendEvents, dispatched := dispatched }
    else
      { outcome := .sent { c with num_emails := n } message,
        events := sendEvents, dispatched := dispatched }

/-- The connection state produced by the max_emails recycle inside
Connection.send: counter reset to zero and a fresh handle opened by
configure_host. -/
def Connection.recycled (c : Connection) : Connection :=
  { c with host := some c.nextHandle, nextHandle := c.nextHandle + 1,
           num_emails := 0 }

/-- Runs a sequence of sends inside one scope, as a with-statement body
would: it stops at the first raised error, keeping the traces accumulated so
far and the connection state the with-statement hands to __exit__. -/
def Connection.runSends (app : Str) :
    Connection → List (Message × Option Str × Nat) →
      Option SendError × Connection × List TransportEvent × List (Str × Message)
  | c, [] => (none, c, [], [])
  | c, (m, ef, now) :: rest =>
    let r := c.send app m ef now
    match r.outcome with
    | .raised e => (some e, c, r.events, r.dispatched)
    | .sent c' _ =>
      let out := Connection.runSends app c' rest
      (out.1, out.2.1, r.events ++ out.2.2.1, r.dispatched ++ out.2.2.2)

/-- Models the whole with mail.connect() scope: __enter__, the body (a send
sequence whose first error propagates), then __exit__ on every exit path,
error or not, as the with-statement guarantees. -/
def withScope (mail : _Mail) (app : Str)
    (sends : List (Message × Option Str × Nat)) :
    Option SendError × List TransportEvent × List (Str × Message) :=
  let c₀ := Connection.enter mail
  let run := Connection.runSends app c₀.1 sends
  (run.1, c₀.2 ++ run.2.2.1 ++ run.2.1.exitScope run.1, run.2.2.2)

/-! Historical flaskext.mail connection (kept in the repository), which has
the fail_silently acquisition policy. -/

namespace Flaskext

/-- Configuration of the historical flaskext.mail version, including its
fail_silently flag. -/
structure OldMail where
  server : Str
  username : Option Str
  password : Option Str
  port : Nat
  use_tls : Bool
  use_ssl : Bool
  fail_silently : Bool
  debug : Bool
deriving DecidableEq, Repr

/-- The socket.error the SMTP constructor can raise. -/
inductive SocketError
  | socketError
deriving DecidableEq, Repr

/-- Embeds the historical Connection.configure_host of
flaskext/mail/connection.py: only the SMTP constructor is wrapped in
try/except socket.error, and on failure fail_silently returns None (no
handle) while otherwise the error propagates; on success the debug level is
set and the optional STARTTLS and login run.  The constructorOk argument
models whether the socket connect succeeds. -/
def old_configure_host (mail : OldMail) (constructorOk : Bool) :
    Except SocketError (Option Unit × List TransportEvent) :=
  if !constructorOk then
    if mail.fail_silently then .ok (none, [])
    else .error .socketError
  else
    .ok (some (),
      [TransportEvent.connect mail.server mail.port mail.use_ssl]
        ++ (if mail.use_tls then [TransportEvent.starttls] else [])
        ++ (if pyTruthyStr mail.username && pyTruthyStr mail.password then
              [TransportEvent.login (mail.username.getD []) (mail.password.getD [])]
            else []))

/-- Embeds the transmission and dispatch part of the historical
Connection.send: sendmail runs only when the handle is truthy, and the
email_dispatched signal (present, since blinker is installed in this
repository) fires regardless.  The counter recycling that follows is
identical in shape to the current version embedded above and is not needed
for the acquisition-failure claim. -/
def old_send (host : Option Unit) (message : Message) (app : Str) :
    List TransportEvent × List (Str × Message) :=
  match host with
  | some _ =>
      ([TransportEvent.sendmail message.sender
          (sanitize_addresses message.recipients) message], [(app, message)])
  | none => ([], [(app, message)])

end Flaskext

/-! Sample concrete inputs used to evaluate the theorems. -/

/-- A sample configuration: plain connection, no credentials, max_emails 2. -/
def sampleMail : _Mail :=
  { server := "localhost".toList, username := none, password := none,
    port := 25, use_tls := false, use_ssl := false, default_sender := none,
    debug := 0, max_emails := some 2, suppress := false,
    ascii_attachments := false }

/-- A sample well-formed message. -/
def sampleMsg : Message :=
  { subject := "Hi".toList, recipients := [.plain "to@example.com".toList],
    sender := "me@example.com".toList, reply_to := none, cc := [], bcc := [],
    body := some "Hello".toList, alts := [], date := some 5,
    msgId := "<id1@host>".toList, charset := none, extra_headers := [],
    mail_options := [], rcpt_options := [], attachments := [] }

/-- A sample message with no recipients at all. -/
def sampleMsgNoRcpt : Message :=
  { sampleMsg with recipients := [], cc := [], bcc := [] }

/-- A sample message whose subject breaks the fold rule: the continuation
line after CRLF does not begin with a tab or space. -/
def sampleMsgBadFold : Message :=
  { sampleMsg with subject := "Hello\r\nWorld".toList }

/-- A sample message with an HTML alternative and one attachment. -/
def sampleMsgHtml : Message :=
  { sampleMsg with
    alts := [("html".toList, "<b>Hello</b>".toList)],
    attachments := [{ filename := some "a.txt".toList,
                      content_type := "text/plain".toList,
                      data := "data".toList,
                      disposition := "attachment".toList, headers := [] }] }

/-- A sample message whose only CR/LF characters sit in a bcc entry. -/
def sampleMsgEvilBcc : Message :=
  { sampleMsg with bcc := [.plain "x@y\r\nEvil-Header: 1".toList] }

/-! Helper lemmas shared by the claim theorems. -/

lemma dropWhile_all_iff {p : Char → Bool} {l : Str} :
    (∀ x ∈ l.dropWhile p, p x = true) ↔ ∀ x ∈ l, p x = true := by
  constructor
  · intro h x hx
    rw [← List.takeWhile_append_dropWhile (p := p) (l := l)] at hx
    rcases List.mem_append.1 hx with h1 | h2
    · exact List.mem_takeWhile_imp h1
    · exact h x h2
  · intro h x hx
    exact h x (List.Sublist.subset (List.dropWhile_sublist p) hx)

lemma pyStrip_eq_nil_iff (l : Str) : pyStrip l = [] ↔ l.all isPySpace = true := by
  unfold pyStrip
  rw [List.reverse_eq_nil_iff, List.dropWhile_eq_nil_iff]
  simp only [List.mem_reverse]
  rw [dropWhile_all_iff, List.all_eq_true]

lemma badSubjectLine_iff (i : Nat) (line : Str) :
    badSubjectLine i line = true ↔
      (line = [] ∨ (0 < i ∧ startsWithTabOrSpace line = false) ∨
        _has_newline line = true ∨ (line ≠ [] ∧ line.all isPySpace = true)) := by
  unfold badSubjectLine
  cases line with
  | nil => simp
  | cons c cs =>
    simp only [Bool.or_eq_true, Bool.and_eq_true, decide_eq_true_iff,
      Bool.not_eq_true', beq_iff_eq, List.length_eq_zero, pyStrip_eq_nil_iff,
      List.all_eq_true, List.isEmpty_cons, List.mem_cons, forall_eq_or_imp]
    tauto

lemma send_to_eq_toFinset (m : Message) :
    m.send_to = (m.recipients ++ m.cc ++ m.bcc).toFinset := by
  unfold Message.send_to
  by_cases hb : m.bcc.isEmpty <;> by_cases hc : m.cc.isEmpty <;>
    simp_all [List.isEmpty_iff, List.toFinset_append]
  exact congrArg (fun s => m.recipients.toFinset ∪ s) (Finset.union_comm _ _)

/-! Claim theorems. -/

/-- C3: for every Message, the resolved send-to set has size equal to the
count of distinct addresses across the recipients, cc and bcc lists; an
address appearing in more than one of the three lists, or more than once in
one list, collapses to a single envelope recipient. -/
theorem send_to_card_eq_distinct_count (m : Message) :
    m.send_to.card = (m.recipients ++ m.cc ++ m.bcc).toFinset.card := by
  rw [send_to_eq_toFinset]

/-- C2: for every Message whose resolved recipient set is empty,
Connection.send raises the precondition error before any transport call: the
result is the noRecipients assertion failure with an empty transport trace
and no dispatch. -/
theorem send_no_recipients_aborts (c : Connection) (app : Str) (m : Message)
    (ef : Option Str) (now : Nat) (h : m.send_to = ∅) :
    c.send app m ef now =
      { outcome := .raised .noRecipients, events := [], dispatched := [] } := by
  unfold Connection.send
  rw [if_pos h]

/-- Witness for C2 at a concrete message with no recipients: the hypothesis
holds by computation and the send records zero transport invocations. -/
theorem send_no_recipients_aborts_witness :
    sampleMsgNoRcpt.send_to = ∅ ∧
      (Connection.enter sampleMail).1.send "app".toList sampleMsgNoRcpt none 7 =
        { outcome := .raised .noRecipients, events := [], dispatched := [] } :=
  ⟨by decide,
    send_no_recipients_aborts (Connection.enter sampleMail).1 "app".toList
      sampleMsgNoRcpt none 7 (by decide)⟩

lemma headersToCheck_no_newline (m : Message)
    (hs : _has_newline m.sender = false)
    (hr : ∀ a ∈ m.recipients, _has_newline a.headerString = false)
    (hrt : ∀ a, m.reply_to = some a → _has_newline a.headerString = false) :
    m.headersToCheck.any (fun h => _has_newline h.headerString) = false := by
  rw [List.any_eq_false]
  intro x hx
  rw [Bool.not_eq_true]
  cases hcase : m.reply_to with
  | none =>
    simp only [Message.headersToCheck, hcase] at hx
    rcases List.mem_cons.1 hx with rfl | hx'
    · exact hs
    · exact hr x hx'
  | some r =>
    simp only [Message.headersToCheck, hcase] at hx
    by_cases ht : Addr.truthyOpt (some r) = true
    · rw [if_pos ht] at hx
      rcases List.mem_append.1 hx with hx' | hx'
      · rcases List.mem_cons.1 hx' with rfl | hx''
        · exact hs
        · exact hr x hx''
      · rcases List.mem_singleton.1 hx' with rfl
        exact hrt x hcase
    · rw [if_neg ht] at hx
      rcases List.mem_cons.1 hx with rfl | hx'
      · exact hs
      · exact hr x hx'

/-- C1: for every Message whose sender, recipients and reply-to contain no
CR/LF, has_bad_headers returns true exactly when the subject contains a bare
CR or LF that does not form a valid fold: after splitting the subject on
CRLF, some line is empty, some continuation line (index > 0) does not begin
with a tab or space, some line still contains a bare CR or LF, or some line
is pure whitespace; a properly folded multi-line subject therefore returns
false. -/
theorem has_bad_headers_subject_iff (m : Message)
    (hs : _has_newline m.sender = false)
    (hr : ∀ a ∈ m.recipients, _has_newline a.headerString = false)
    (hrt : ∀ a, m.reply_to = some a → _has_newline a.headerString = false) :
    m.has_bad_headers = true ↔
      (_has_newline m.subject = true ∧
        ∃ p ∈ (splitCRLF m.subject).enum,
          p.2 = [] ∨ (0 < p.1 ∧ startsWithTabOrSpace p.2 = false) ∨
          _has_newline p.2 = true ∨ (p.2 ≠ [] ∧ p.2.all isPySpace = true)) := by
  unfold Message.has_bad_headers
  rw [headersToCheck_no_newline m hs hr hrt]
  by_cases hse : m.subject.isEmpty = true
  · have hnil : m.subject = [] := List.isEmpty_iff.1 hse
    simp [hnil, _has_newline]
  · rw [Bool.not_eq_true] at hse
    by_cases hn : _has_newline m.subject = true
    · simp only [Bool.false_eq_true, if_false, hse, Bool.not_false, if_true, hn]
      rw [List.any_eq_true]
      constructor
      · rintro ⟨p, hp, hbad⟩
        exact ⟨trivial, p, hp, (badSubjectLine_iff p.1 p.2).1 hbad⟩
      · rintro ⟨-, p, hp, hclaim⟩
        exact ⟨p, hp, (badSubjectLine_iff p.1 p.2).2 hclaim⟩
    · rw [Bool.not_eq_true] at hn
      simp [hse, hn]

/-- Witness for C1 at a concrete message whose subject has a CRLF followed
by a continuation line that does not begin with folding whitespace. -/
theorem has_bad_headers_subject_iff_witness :
    (_has_newline sampleMsgBadFold.sender = false) ∧
    (sampleMsgBadFold.has_bad_headers = true ↔
      (_has_newline sampleMsgBadFold.subject = true ∧
        ∃ p ∈ (splitCRLF sampleMsgBadFold.subject).enum,
          p.2 = [] ∨ (0 < p.1 ∧ startsWithTabOrSpace p.2 = false) ∨
          _has_newline p.2 = true ∨ (p.2 ≠ [] ∧ p.2.all isPySpace = true))) :=
  ⟨by decide,
    has_bad_headers_subject_iff sampleMsgBadFold (by decide) (by decide)
      (fun _ h => nomatch h)⟩

/-- C4: for every Message with a plain-text body and any alternative content,
encoding yields a multipart container whose first part is a nested
alternative multipart holding the plain-text part first and then each
alternative in insertion order; the attachments follow as additional
top-level parts alongside the alternative block. -/
theorem message_body_alternative_structure (m : Message) (b : Str)
    (hb : m.body = some b) (ha : m.alts ≠ []) :
    m.messageBody =
      Mime.multipart "mixed".toList
        (Mime.multipart "alternative".toList
            (Mime.text "plain".toList (pyOrStr m.charset "utf-8".toList) (some b)
              :: m.alts.map fun p =>
                   Mime.text p.1 (pyOrStr m.charset "utf-8".toList) (some p.2))
          :: m.attachments.map attachmentPart) := by
  have hempty : m.alts.isEmpty = false := by
    cases halts : m.alts with
    | nil => exact absurd halts ha
    | cons x xs => rfl
  unfold Message.messageBody
  simp [hempty, Message._mimetext, hb]

/-- Witness for C4: the sample message with an HTML alternative and one
attachment encodes to the nested alternative structure with the attachment
as a second top-level part. -/
theorem message_body_alternative_structure_witness :
    sampleMsgHtml.body = some "Hello".toList ∧ sampleMsgHtml.alts ≠ [] ∧
    sampleMsgHtml.messageBody =
      Mime.multipart "mixed".toList
        [Mime.multipart "alternative".toList
           [Mime.text "plain".toList "utf-8".toList (some "Hello".toList),
            Mime.text "html".toList "utf-8".toList (some "<b>Hello</b>".toList)],
         Mime.base "text".toList "plain".toList "data".toList] :=
  ⟨by decide, by decide,
    message_body_alternative_structure sampleMsgHtml "Hello".toList
      (by decide) (by decide)⟩

/-- Counterexample to C6 as stated: re-serializing the same message state
does not always yield the same bytes.  The sample message with an HTML
alternative is serialized twice on identical state; the two calls draw
different boundaries from the random source (as two consecutive calls to
random.randrange do), and the resulting bytes differ. -/
theorem serialization_not_byte_idempotent :
    sampleMsgHtml.as_bytes 3 (fun k => k) ≠ sampleMsgHtml.as_bytes 3 (fun k => k + 1) := by
  intro h
  have hb := congrArg SerializedBytes.boundaries h
  simp only [Message.as_bytes] at hb
  exact absurd hb (by decide)

/-- C6 (amended): serialization is idempotent in the message state up to the
multipart boundary values, which the generator draws fresh from the random
source on every serialization: with its date set, re-serializing a message
yields the same document (headers and part tree) whatever the current time
and the random draws are, and exactly the same bytes when the message is
single-part (no attachments and no alternatives, so no boundary is drawn);
the Message-ID header always carries the identifier generated at
construction, and the first-send date stamping does not alter a message
whose date is already set. -/
theorem serialization_idempotent_amended (m : Message) (t₁ t₂ : Nat)
    (r₁ r₂ : Nat → Nat) (h : m.date.isSome = true) :
    (m.as_bytes t₁ r₁).doc = (m.as_bytes t₂ r₂).doc ∧
    (m.attachments = [] → m.alts = [] → m.as_bytes t₁ r₁ = m.as_bytes t₂ r₂) ∧
    (∀ t r, ("Message-ID".toList, m.msgId) ∈ (m.as_bytes t r).doc.headers) ∧
    (∀ now, m.stampDate now = m) := by
  obtain ⟨d, hd⟩ := Option.isSome_iff_exists.1 h
  have hdoc : m._message t₁ = m._message t₂ := by
    unfold Message._message Message.mkHeaders
    simp [hd]
  refine ⟨hdoc, fun hatt halts => ?_, ?_, ?_⟩
  · have hcnt : m.boundaryCount = 0 := by
      unfold Message.boundaryCount
      simp [hatt, halts]
    unfold Message.as_bytes
    rw [hcnt, hdoc]
    simp
  · intro t r
    unfold Message.as_bytes Message._message Message.mkHeaders
    simp [List.mem_append]
  · intro now
    unfold Message.stampDate
    simp [hd]

/-- Witness for the amended C6 at the sample single-part message, whose date
is set: serializing at two different times with two different random sources
yields the same bytes, and stamping is the identity. -/
theorem serialization_idempotent_amended_witness :
    sampleMsg.date.isSome = true ∧
    sampleMsg.as_bytes 3 (fun k => k) = sampleMsg.as_bytes 9 (fun k => k + 5) ∧
    sampleMsg.stampDate 11 = sampleMsg :=
  ⟨by decide,
    (serialization_idempotent_amended sampleMsg 3 9 (fun k => k) (fun k => k + 5)
        (by decide)).2.1 rfl rfl,
    (serialization_idempotent_amended sampleMsg 3 9 (fun k => k) (fun k => k + 5)
        (by decide)).2.2.2 11⟩

/-! Case equations for Connection.send on a message that passes its checks. -/

lemma send_ok_none_norm (c : Connection) (app : Str) (m : Message)
    (ef : Option Str) (now : Nat)
    (h1 : ¬m.send_to = ∅) (h2 : m.sender.isEmpty = false)
    (h3 : m.has_bad_headers = false) (hh : c.host = none)
    (hmax : ¬c.mail.max_emails = some (c.num_emails + 1)) :
    c.send app m ef now =
      { outcome := .sent { c with num_emails := c.num_emails + 1 } (m.stampDate now),
        events := [], dispatched := [(app, m.stampDate now)] } := by
  unfold Connection.send
  rw [if_neg h1, if_neg (by simp [h2]), if_neg (by simp [h3])]
  simp [hh, hmax]

lemma send_ok_none_recycle (c : Connection) (app : Str) (m : Message)
    (ef : Option Str) (now : Nat)
    (h1 : ¬m.send_to = ∅) (h2 : m.sender.isEmpty = false)
    (h3 : m.has_bad_headers = false) (hh : c.host = none)
    (hmax : c.mail.max_emails = some (c.num_emails + 1)) :
    c.send app m ef now =
      { outcome := .sent { c with num_emails := 0 } (m.stampDate now),
        events := [], dispatched := [(app, m.stampDate now)] } := by
  unfold Connection.send
  rw [if_neg h1, if_neg (by simp [h2]), if_neg (by simp [h3])]
  simp [hh, hmax]

lemma send_ok_some_norm (c : Connection) (app : Str) (m : Message)
    (ef : Option Str) (now : Nat) (hdl : Nat)
    (h1 : ¬m.send_to = ∅) (h2 : m.sender.isEmpty = false)
    (h3 : m.has_bad_headers = false) (hh : c.host = some hdl)
    (hmax : ¬c.mail.max_emails = some (c.num_emails + 1)) :
    c.send app m ef now =
      { outcome := .sent { c with num_emails := c.num_emails + 1 } (m.stampDate now),
        events := [TransportEvent.sendmail
            (sanitize_address (.plain (pyOrStr ef (m.stampDate now).sender)))
            (sanitize_addresses (m.stampDate now).send_to_list) (m.stampDate now)],
        dispatched := [(app, m.stampDate now)] } := by
  unfold Connection.send
  rw [if_neg h1, if_neg (by simp [h2]), if_neg (by simp [h3])]
  simp [hh, hmax]

lemma send_ok_some_recycle (c : Connection) (app : Str) (m : Message)
    (ef : Option Str) (now : Nat) (hdl : Nat)
    (h1 : ¬m.send_to = ∅) (h2 : m.sender.isEmpty = false)
    (h3 : m.has_bad_headers = false) (hh : c.host = some hdl)
    (hmax : c.mail.max_emails = some (c.num_emails + 1)) :
    c.send app m ef now =
      { outcome := .sent c.recycled (m.stampDate now),
        events := [TransportEvent.sendmail
            (sanitize_address (.plain (pyOrStr ef (m.stampDate now).sender)))
            (sanitize_addresses (m.stampDate now).send_to_list) (m.stampDate now),
          TransportEvent.quit] ++ configure_host_events c.mail,
        dispatched := [(app, m.stampDate now)] } := by
  unfold Connection.send
  rw [if_neg h1, if_neg (by simp [h2]), if_neg (by simp [h3])]
  simp [hh, hmax, Connection.recycled]

/-- C8: a logical send attempt that passes validation fires the
email_dispatched notification exactly once, carrying the application
identity and the (date-stamped) Message; this includes suppressed sends,
where no transport handle exists and the transport trace is empty. -/
theorem dispatch_fired_exactly_once (c : Connection) (app : Str) (m : Message)
    (ef : Option Str) (now : Nat)
    (h1 : ¬m.send_to = ∅) (h2 : m.sender.isEmpty = false)
    (h3 : m.has_bad_headers = false) :
    (c.send app m ef now).dispatched = [(app, m.stampDate now)] ∧
    (∃ c', (c.send app m ef now).outcome = .sent c' (m.stampDate now)) ∧
    (c.host = none → (c.send app m ef now).events = []) := by
  cases hh : c.host with
  | none =>
    by_cases hmax : c.mail.max_emails = some (c.num_emails + 1)
    · rw [send_ok_none_recycle c app m ef now h1 h2 h3 hh hmax]
      exact ⟨rfl, ⟨_, rfl⟩, fun _ => rfl⟩
    · rw [send_ok_none_norm c app m ef now h1 h2 h3 hh hmax]
      exact ⟨rfl, ⟨_, rfl⟩, fun _ => rfl⟩
  | some hdl =>
    by_cases hmax : c.mail.max_emails = some (c.num_emails + 1)
    · rw [send_ok_some_recycle c app m ef now hdl h1 h2 h3 hh hmax]
      exact ⟨rfl, ⟨c.recycled, rfl⟩, fun hc => nomatch hc⟩
    · rw [send_ok_some_norm c app m ef now hdl h1 h2 h3 hh hmax]
      exact ⟨rfl, ⟨{ c with num_emails := c.num_emails + 1 }, rfl⟩,
        fun hc => nomatch hc⟩

/-- Witness for C8 on a suppressed connection: the dispatch record fires
exactly once while the transport trace stays empty. -/
theorem dispatch_fired_exactly_once_witness :
    (¬sampleMsg.send_to = ∅) ∧
    ((Connection.enter { sampleMail with suppress := true }).1.send
        "app".toList sampleMsg none 7).dispatched =
      [("app".toList, sampleMsg.stampDate 7)] :=
  ⟨by decide,
    (dispatch_fired_exactly_once (Connection.enter
        { sampleMail with suppress := true }).1 "app".toList sampleMsg none 7
      (by decide) (by decide) (by decide)).1⟩

/-- C10: has_bad_headers inspects only the sender, the recipients, the
reply-to and the subject; cc and bcc are never scanned, so a message whose
only CR or LF characters occur in cc or bcc passes the check and
Connection.send transmits it without raising BadHeaderError. -/
theorem cc_bcc_never_scanned (m : Message)
    (hs : _has_newline m.sender = false)
    (hr : ∀ a ∈ m.recipients, _has_newline a.headerString = false)
    (hrt : ∀ a, m.reply_to = some a → _has_newline a.headerString = false)
    (hsub : _has_newline m.subject = false) :
    m.has_bad_headers = false ∧
    (∀ (c : Connection) (app : Str) (ef : Option Str) (now : Nat) (hdl : Nat),
       c.host = some hdl → ¬m.send_to = ∅ → m.sender.isEmpty = false →
       (∃ c', (c.send app m ef now).outcome = .sent c' (m.stampDate now)) ∧
       (c.send app m ef now).events.head? = some (TransportEvent.sendmail
          (sanitize_address (.plain (pyOrStr ef (m.stampDate now).sender)))
          (sanitize_addresses (m.stampDate now).send_to_list)
          (m.stampDate now))) := by
  have hbad : m.has_bad_headers = false := by
    unfold Message.has_bad_headers
    rw [headersToCheck_no_newline m hs hr hrt]
    by_cases hse : m.subject.isEmpty = true <;> simp [hse, hsub]
  refine ⟨hbad, ?_⟩
  intro c app ef now hdl hh h1 h2
  by_cases hmax : c.mail.max_emails = some (c.num_emails + 1)
  · rw [send_ok_some_recycle c app m ef now hdl h1 h2 hbad hh hmax]
    exact ⟨⟨c.recycled, rfl⟩, rfl⟩
  · rw [send_ok_some_norm c app m ef now hdl h1 h2 hbad hh hmax]
    exact ⟨⟨{ c with num_emails := c.num_emails + 1 }, rfl⟩, rfl⟩

/-- Witness for C10: the message with a header-injection attempt confined to
bcc passes has_bad_headers and is transmitted. -/
theorem cc_bcc_never_scanned_witness :
    sampleMsgEvilBcc.has_bad_headers = false ∧
    _has_newline (Addr.headerString (.plain "x@y\r\nEvil-Header: 1".toList)) = true :=
  ⟨(cc_bcc_never_scanned sampleMsgEvilBcc (by decide) (by decide)
      (fun _ h => nomatch h) (by decide)).1,
    by decide⟩

/-- C7: when opening the underlying transport fails during connection
acquisition, the failure propagates to the caller by default; under the
fail-silently policy it is swallowed, yielding a None transport handle, and
a subsequent send with no handle behaves as suppressed: the dispatch
notification still fires and no transport call is made. -/
theorem fail_silently_acquisition (mail : Flaskext.OldMail) :
    (mail.fail_silently = false →
        Flaskext.old_configure_host mail false = .error .socketError) ∧
    (mail.fail_silently = true →
        Flaskext.old_configure_host mail false = .ok (none, []) ∧
        ∀ (m : Message) (app : Str),
          Flaskext.old_send none m app = ([], [(app, m)])) := by
  refine ⟨fun hf => ?_, fun hf => ⟨?_, fun m app => rfl⟩⟩ <;>
    · unfold Flaskext.old_configure_host
      simp [hf]

/-- Witness for C7 at a concrete configuration, in both policy modes. -/
theorem fail_silently_acquisition_witness :
    (Flaskext.old_configure_host
        { server := "localhost".toList, username := none, password := none,
          port := 25, use_tls := false, use_ssl := false,
          fail_silently := false, debug := false } false = .error .socketError) ∧
    (Flaskext.old_configure_host
        { server := "localhost".toList, username := none, password := none,
          port := 25, use_tls := false, use_ssl := false,
          fail_silently := true, debug := false } false = .ok (none, []) ∧
      Flaskext.old_send none sampleMsg "app".toList = ([], [("app".toList, sampleMsg)])) :=
  ⟨(fail_silently_acquisition _).1 rfl,
    ((fail_silently_acquisition _).2 rfl).1,
    ((fail_silently_acquisition
        { server := "localhost".toList, username := none, password := none,
          port := 25, use_tls := false, use_ssl := false,
          fail_silently := true, debug := false }).2 rfl).2 sampleMsg "app".toList⟩

/-- C9: on every exit of a Connection scope, normal or error alike, an open
transport handle is quit exactly once and a missing handle is not touched;
the scope trace always ends with these exit events, and the exit events do
not depend on the exception information, so the cleanup is unconditional. -/
theorem scope_exit_unconditional_quit (mail : _Mail) (app : Str)
    (sends : List (Message × Option Str × Nat)) :
    (withScope mail app sends).2.1 =
      (Connection.enter mail).2
        ++ (Connection.runSends app (Connection.enter mail).1 sends).2.2.1
        ++ ((Connection.runSends app (Connection.enter mail).1 sends).2.1.exitScope
              (Connection.runSends app (Connection.enter mail).1 sends).1) ∧
    (∀ exc,
      ((Connection.runSends app (Connection.enter mail).1 sends).2.1.exitScope exc).count
          TransportEvent.quit =
        if (Connection.runSends app (Connection.enter mail).1 sends).2.1.host.isSome
        then 1 else 0) := by
  refine ⟨rfl, fun exc => ?_⟩
  unfold Connection.exitScope
  by_cases hh :
      (Connection.runSends app (Connection.enter mail).1 sends).2.1.host.isSome = true <;>
    simp [hh]

/-- Witness for C9 on a scope whose second send raises the no-recipients
assertion: the trace still ends with exactly one quit. -/
theorem scope_exit_unconditional_quit_witness :
    (withScope sampleMail "app".toList
        [(sampleMsg, none, 1), (sampleMsgNoRcpt, none, 2)]).1 = some .noRecipients ∧
    ((Connection.runSends "app".toList (Connection.enter sampleMail).1
        [(sampleMsg, none, 1), (sampleMsgNoRcpt, none, 2)]).2.1.exitScope
          (some .noRecipients)).count TransportEvent.quit = 1 :=
  ⟨by decide,
    by
      have h := (scope_exit_unconditional_quit sampleMail "app".toList
        [(sampleMsg, none, 1), (sampleMsgNoRcpt, none, 2)]).2 (some .noRecipients)
      rw [h]
      decide⟩

lemma runSends_invariant (app : Str) (N : Nat) (hN : 0 < N) :
    ∀ (sends : List (Message × Option Str × Nat)) (c : Connection),
      c.mail.max_emails = some N → c.num_emails < N →
      (∀ s ∈ sends, ¬s.1.send_to = ∅ ∧ s.1.sender.isEmpty = false ∧
        s.1.has_bad_headers = false) →
      (Connection.runSends app c sends).1 = none ∧
      (Connection.runSends app c sends).2.1.mail = c.mail ∧
      (Connection.runSends app c sends).2.1.num_emails =
          (c.num_emails + sends.length) % N ∧
      (c.host = none → (Connection.runSends app c sends).2.1.host = none) ∧
      (∀ j, c.host = some j → c.nextHandle = j + 1 →
         (Connection.runSends app c sends).2.1.host =
             some (j + (c.num_emails + sends.length) / N) ∧
         (Connection.runSends app c sends).2.1.nextHandle =
             (j + (c.num_emails + sends.length) / N) + 1) := by
  intro sends
  induction sends with
  | nil =>
    intro c hmax hcnt _
    refine ⟨rfl, rfl, ?_, fun h => h, fun j hj hn => ?_⟩
    · simp only [Connection.runSends, List.length_nil, Nat.add_zero]
      exact (Nat.mod_eq_of_lt hcnt).symm
    · simp only [Connection.runSends, List.length_nil, Nat.add_zero,
        Nat.div_eq_of_lt hcnt, Nat.add_zero]
      exact ⟨hj, hn⟩
  | cons s rest ih =>
    intro c hmax hcnt hvalid
    obtain ⟨m, ef, now⟩ := s
    obtain ⟨h1, h2, h3⟩ := hvalid (m, ef, now) (List.mem_cons_self _ _)
    have hvalid' : ∀ s ∈ rest, ¬s.1.send_to = ∅ ∧ s.1.sender.isEmpty = false ∧
        s.1.has_bad_headers = false := fun s hs => hvalid s (List.mem_cons_of_mem _ hs)
    by_cases hrec : c.mail.max_emails = some (c.num_emails + 1)
    · have hNeq : N = c.num_emails + 1 := by rw [hmax] at hrec; simpa using hrec
      cases hh : c.host with
      | none =>
        have hstep := send_ok_none_recycle c app m ef now h1 h2 h3 hh hrec
        simp only [Connection.runSends, hstep, List.length_cons]
        obtain ⟨ih1, ih2, ih3, ih4, _⟩ :=
          ih { c with num_emails := 0 } hmax hN hvalid'
        have e1 : ({ c with num_emails := 0 } : Connection).num_emails = 0 := rfl
        rw [e1, Nat.zero_add] at ih3
        refine ⟨ih1, ih2, ?_, fun _ => ih4 hh, fun j hj _ => nomatch hj⟩
        rw [ih3, show c.num_emails + (rest.length + 1) = N + rest.length
          from by omega, Nat.add_mod_left]
      | some hdl =>
        have hstep := send_ok_some_recycle c app m ef now hdl h1 h2 h3 hh hrec
        simp only [Connection.runSends, hstep, List.length_cons]
        obtain ⟨ih1, ih2, ih3, _, ih5⟩ := ih c.recycled hmax hN hvalid'
        have e1 : c.recycled.num_emails = 0 := rfl
        have e2 : c.recycled.host = some c.nextHandle := rfl
        have e3 : c.recycled.nextHandle = c.nextHandle + 1 := rfl
        have e4 : c.recycled.mail = c.mail := rfl
        rw [e1, Nat.zero_add] at ih3
        rw [e4] at ih2
        obtain ⟨ha, hb⟩ := ih5 c.nextHandle e2 e3
        rw [e1, Nat.zero_add] at ha hb
        refine ⟨ih1, ih2, ?_, fun hcn => absurd hcn (by simp), fun j hj hn => ?_⟩
        · rw [ih3, show c.num_emails + (rest.length + 1) = N + rest.length
            from by omega, Nat.add_mod_left]
        · rw [show c.num_emails + (rest.length + 1) = N + rest.length from by omega,
            Nat.add_div_left _ hN]
          constructor
          · rw [ha, hn]
            simp only [Option.some.injEq]
            omega
          · rw [hb, hn]
            omega
    · have hne : c.num_emails + 1 ≠ N := fun he => hrec (by rw [hmax, he])
      have hlt : c.num_emails + 1 < N := by omega
      cases hh : c.host with
      | none =>
        have hstep := send_ok_none_norm c app m ef now h1 h2 h3 hh hrec
        simp only [Connection.runSends, hstep, List.length_cons]
        obtain ⟨ih1, ih2, ih3, ih4, _⟩ :=
          ih { c with num_emails := c.num_emails + 1 } hmax hlt hvalid'
        have e1 : ({ c with num_emails := c.num_emails + 1 } : Connection).num_emails
            = c.num_emails + 1 := rfl
        rw [e1] at ih3
        refine ⟨ih1, ih2, ?_, fun _ => ih4 hh, fun j hj _ => nomatch hj⟩
        rw [ih3]; congr 1; omega
      | some hdl =>
        have hstep := send_ok_some_norm c app m ef now hdl h1 h2 h3 hh hrec
        simp only [Connection.runSends, hstep, List.length_cons]
        obtain ⟨ih1, ih2, ih3, _, ih5⟩ :=
          ih { c with num_emails := c.num_emails + 1 } hmax hlt hvalid'
        have e1 : ({ c with num_emails := c.num_emails + 1 } : Connection).num_emails
            = c.num_emails + 1 := rfl
        rw [e1] at ih3
        refine ⟨ih1, ih2, ?_, fun hcn => absurd hcn (by simp), fun j hj hn => ?_⟩
        · rw [ih3]; congr 1; omega
        · have hj' : hdl = j := Option.some.inj hj
          have hh' : c.host = some j := by rw [hh, hj']
          obtain ⟨ha, hb⟩ := ih5 j hh' hn
          rw [e1] at ha hb
          rw [show c.num_emails + (rest.length + 1) = c.num_emails + 1 + rest.length
            from by omega]
          exact ⟨ha, hb⟩

/-- C5: for a connection whose configuration sets max-emails = N (N ≥ 1),
after exactly N send operations within one scope the internal sent counter
is back to zero; on the send that reaches the threshold, if a real handle is
open it is quit and a fresh handle immediately opened by configure_host (a
scope that started on handle 0 ends on handle 1), and when no handle exists
only the counter resets. -/
theorem max_emails_recycles (mail : _Mail) (app : Str) (N : Nat)
    (sends : List (Message × Option Str × Nat))
    (hmax : mail.max_emails = some N) (hN : 1 ≤ N) (hlen : sends.length = N)
    (hvalid : ∀ s ∈ sends, ¬s.1.send_to = ∅ ∧ s.1.sender.isEmpty = false ∧
      s.1.has_bad_headers = false) :
    ((Connection.runSends app (Connection.enter mail).1 sends).1 = none ∧
     (Connection.runSends app (Connection.enter mail).1 sends).2.1.num_emails = 0 ∧
     (mail.suppress = false →
        (Connection.enter mail).1.host = some 0 ∧
        (Connection.runSends app (Connection.enter mail).1 sends).2.1.host = some 1) ∧
     (mail.suppress = true →
        (Connection.runSends app (Connection.enter mail).1 sends).2.1.host = none)) ∧
    (∀ (c : Connection) (m : Message) (ef : Option Str) (now : Nat) (hdl : Nat),
       c.mail.max_emails = some N → c.num_emails + 1 = N →
       ¬m.send_to = ∅ → m.sender.isEmpty = false → m.has_bad_headers = false →
       (c.host = some hdl →
          c.send app m ef now =
            { outcome := .sent c.recycled (m.stampDate now),
              events := [TransportEvent.sendmail
                  (sanitize_address (.plain (pyOrStr ef (m.stampDate now).sender)))
                  (sanitize_addresses (m.stampDate now).send_to_list)
                  (m.stampDate now),
                TransportEvent.quit] ++ configure_host_events c.mail,
              dispatched := [(app, m.stampDate now)] }) ∧
       (c.host = none →
          c.send app m ef now =
            { outcome := .sent { c with num_emails := 0 } (m.stampDate now),
              events := [], dispatched := [(app, m.stampDate now)] })) := by
  have hN0 : 0 < N := hN
  constructor
  · cases hs : mail.suppress
    · have he : Connection.enter mail =
          ({ mail := mail, host := some 0, num_emails := 0, nextHandle := 1 },
            configure_host_events mail) := by
        unfold Connection.enter; rw [if_neg (by simp [hs])]
      rw [he]
      obtain ⟨i1, _, i3, _, i5⟩ :=
        runSends_invariant app N hN0 sends
          { mail := mail, host := some 0, num_emails := 0, nextHandle := 1 }
          hmax hN0 hvalid
      obtain ⟨ha, _⟩ := i5 0 rfl rfl
      refine ⟨i1, ?_, fun _ => ⟨rfl, ?_⟩, fun ht => absurd ht (by simp)⟩
      · rw [i3, hlen]
        simp [Nat.mod_self]
      · rw [ha, hlen]
        simp [Nat.div_self hN0]
    · have he : Connection.enter mail =
          ({ mail := mail, host := none, num_emails := 0, nextHandle := 0 }, []) := by
        unfold Connection.enter; rw [if_pos hs]
      rw [he]
      obtain ⟨i1, _, i3, i4, _⟩ :=
        runSends_invariant app N hN0 sends
          { mail := mail, host := none, num_emails := 0, nextHandle := 0 }
          hmax hN0 hvalid
      refine ⟨i1, ?_, fun hf => absurd hf (by simp), fun _ => i4 rfl⟩
      rw [i3, hlen]
      simp [Nat.mod_self]
  · intro c m ef now hdl hmaxc hcnt h1 h2 h3
    have hrec : c.mail.max_emails = some (c.num_emails + 1) := by
      rw [hmaxc, hcnt]
    exact ⟨fun hh => send_ok_some_recycle c app m ef now hdl h1 h2 h3 hh hrec,
      fun hh => send_ok_none_recycle c app m ef now h1 h2 h3 hh hrec⟩

/-- Witness for C5: with max-emails 2, after exactly two sends in one scope
the counter is zero and the connection runs on the freshly opened handle 1
instead of the initial handle 0. -/
theorem max_emails_recycles_witness :
    ([((sampleMsg : Message), (none : Option Str), 1), (sampleMsg, none, 2)].length
        = 2) ∧
    (Connection.runSends "app".toList (Connection.enter sampleMail).1
        [(sampleMsg, none, 1), (sampleMsg, none, 2)]).2.1.num_emails = 0 ∧
    (Connection.runSends "app".toList (Connection.enter sampleMail).1
        [(sampleMsg, none, 1), (sampleMsg, none, 2)]).2.1.host = some 1 :=
  ⟨rfl,
    (max_emails_recycles sampleMail "app".toList 2
        [(sampleMsg, none, 1), (sampleMsg, none, 2)] rfl (by omega) rfl
        (by decide)).1.2.1,
    ((max_emails_recycles sampleMail "app".toList 2
        [(sampleMsg, none, 1), (sampleMsg, none, 2)] rfl (by omega) rfl
        (by decide)).1.2.2.1 rfl).2⟩

end FlaskMail
